import Mathlib

/-!
Verification development for the episode script-generation pipeline
(`run_0_1_to_0_8.py`, `web_api.py`, `new_pipeline/steps/*`).

The Python code is shallowly embedded: the filesystem is a function from
artifact locations to optional file data, JSON documents are an inductive
value type with Python truthiness, and the orchestration functions
(`check_invalid_files`, `delete_step_files`, `_fail`, the main stage loop,
`_run_all_episodes` / `_run_single_episode` of steps 0.2 and 0.5) are
translated function by function.  External model calls are abstracted by a
behaviour parameter: the engine only observes the terminal value the retry
chain produces, exactly as the source's contract states.

The file has two parts: definitions first, then the theorems about them.
-/

namespace Pipeline

/-! ### Definitions -/

/-- Whether the character list `l` starts with the pattern `pat`. -/
def listStartsWith : List Char → List Char → Bool
  | _, [] => true
  | [], _ :: _ => false
  | a :: as, b :: bs => a == b && listStartsWith as bs

/-- Python `s.endswith(pat)` (kernel-computable suffix test). -/
def strEndsWith (s pat : String) : Bool :=
  listStartsWith s.data.reverse pat.data.reverse

/-- Model of a parsed JSON value.  Numbers are rationals (Python floats and
ints); object fields are an association list with distinct keys. -/
inductive JsonVal where
  | obj (fields : List (String × JsonVal))
  | arr (elems : List JsonVal)
  | str (s : String)
  | num (q : Rat)
  | bool (b : Bool)
  | null

/-- Python truthiness of a JSON value (`bool(x)`). -/
def truthy : JsonVal → Bool
  | .obj fields => !fields.isEmpty
  | .arr elems => !elems.isEmpty
  | .str s => !s.isEmpty
  | .num q => q.num != 0
  | .bool b => b
  | .null => false

/-- First binding of a key in an object's field list (keys are unique in
documents produced by `json.load`). -/
def lookupField : List (String × JsonVal) → String → Option JsonVal
  | [], _ => none
  | (k, v) :: rest, key => if k == key then some v else lookupField rest key

/-- Python `d.get(key)`: `none` when the receiver is not a dict or the key is
absent (Python would return `None`). -/
def jsonGet (j : JsonVal) (key : String) : Option JsonVal :=
  match j with
  | .obj fields => lookupField fields key
  | _ => none

/-- Truthiness of `d.get(key)` (absent key → `None` → falsy). -/
def getTruthy (j : JsonVal) (key : String) : Bool :=
  match jsonGet j key with
  | some v => truthy v
  | none => false

/-- Location of one artifact on durable storage: project-global files live
under `global/`, collection-level files at the project root, episode files in
the episode's own directory. -/
inductive ArtifactLoc where
  | globalFile (name : String)
  | rootFile (name : String)
  | episodeFile (ep : String) (name : String)
deriving DecidableEq

/-- Contents of one stored file, as far as the engine inspects it:
`asJson size j` is a file of `size` bytes whose bytes parse (`json.load`)
to the value `j`; `notJson size` is a file of `size` bytes that does not
parse as JSON (plain text, or a corrupted document). -/
inductive FileData where
  | asJson (size : Nat) (j : JsonVal)
  | notJson (size : Nat)

/-- The filesystem: each location holds either nothing or a file. -/
def FS : Type := ArtifactLoc → Option FileData

/-- Byte size of a stored file (`os.path.getsize`). -/
def FileData.byteSize : FileData → Nat
  | .asJson sz _ => sz
  | .notJson sz => sz

/-- The `expected_files` table shared by `delete_step_files` and
`check_invalid_files` in both `run_0_1_to_0_8.py` and `web_api.py`.
Unknown step names have no entry. -/
def expected_files : String → List String
  | "0.1" => ["0_1_timed_dialogue.srt"]
  | "0.2" => ["0_2_clues.json"]
  | "0.3" => ["global_character_graph_llm.json"]
  | "0.4" => ["0_4_calibrated_dialogue.txt"]
  | "0.5" => ["0_5_dialogue_turns.json"]
  | "0.6" => ["0_6_script_flow.json", "0_6_script_draft.md"]
  | "0.7" => ["0_7_script.stmf", "0_7_script_analysis.json"]
  | "0.8" => ["0_8_complete_screenplay.fountain", "0_8_complete_screenplay.fdx"]
  | _ => []

/-- Path resolution used by `check_file_integrity`, `delete_step_files` and
`check_invalid_files`: step 0.3 writes to the `global/` directory, step 0.8
to the collection root, every other step to the episode's directory. -/
def resolvePath (step ep fn : String) : ArtifactLoc :=
  if step == "0.3" then .globalFile fn
  else if step == "0.8" then .rootFile fn
  else .episodeFile ep fn

/-- Stage-0.5 structural rule of `check_invalid_files`: a dict is acceptable
when `dialogue_turns`, `turns` or `dialogues` is truthy; a list when
non-empty; anything else is unacceptable. -/
def step05_content_ok : JsonVal → Bool
  | .obj fields => getTruthy (.obj fields) "dialogue_turns"
      || getTruthy (.obj fields) "turns" || getTruthy (.obj fields) "dialogues"
  | .arr elems => !elems.isEmpty
  | _ => false

/-- Invalidity of one existing required file, as tested inside
`check_invalid_files`: a `.json` file must parse (a parse exception is
caught and counts as invalid) and satisfy the stage rule (step 0.5 has the
structural rule, every other step just requires a truthy document); any
other file must be at least 100 bytes. -/
def file_invalid (step fn : String) (d : FileData) : Bool :=
  if strEndsWith fn ".json" then
    match d with
    | .asJson _ j => if step == "0.5" then !step05_content_ok j else !truthy j
    | .notJson _ => true
  else
    decide (d.byteSize < 100)

/-- Invalidity of one required file at its resolved location: a missing file
is invalid, an existing one is checked with `file_invalid`. -/
def file_invalid_at (fs : FS) (step ep fn : String) : Bool :=
  match fs (resolvePath step ep fn) with
  | none => true
  | some d => file_invalid step fn d

/-- Whether `check_invalid_files` records the episode for this step: the
inner loop appends the episode and breaks at the first failing required
file, so an episode is recorded exactly when some required file fails. -/
def episode_invalid (fs : FS) (step ep : String) : Bool :=
  (expected_files step).any (file_invalid_at fs step ep)

/-- `check_invalid_files(config, step_name)`: the (ordered, duplicate-free
per episode) list of enumerated episodes whose artifacts for the step fail
the validity check.  Unknown steps have an empty `expected_files` entry, so
the result is empty, matching the early `return []`. -/
def check_invalid_files (fs : FS) (episodes : List String) (step : String) :
    List String :=
  episodes.filter (fun ep => episode_invalid fs step ep)

/-- The ValidityChecker for a (step, episode) pair: every declared required
file exists and passes its individual check. -/
def unit_valid (fs : FS) (step ep : String) : Bool :=
  (expected_files step).all (fun fn => !file_invalid_at fs step ep fn)

/-- Outcome of the `fix_invalid` gate in `main` / `run_pipeline`: with no
invalid files the run returns immediately reporting that nothing needs
repair; otherwise the invalid episodes become the target set. -/
inductive FixDecision where
  | nothingToFix
  | runWith (targets : List String)

/-- The `fix_invalid` gate (`run_0_1_to_0_8.main` lines 512-517,
`web_api.run_pipeline` lines 435-441). -/
def fix_invalid_gate (fs : FS) (episodes : List String) (step : String) :
    FixDecision :=
  let invalid := check_invalid_files fs episodes step
  if invalid.isEmpty then .nothingToFix else .runWith invalid

/-- A filesystem on which every artifact of step 0.2 is present and valid
(used to exercise the empty `fix_invalid` branch). -/
def fsAllValid02 : FS := fun _ => some (.asJson 200 (.obj [("k", .str "v")]))

/-- Removal of every declared file of one step for the given episode set:
the net effect of the inner deletion loops (deletion errors are logged and
swallowed in the source; the model performs the removals). -/
def delete_files_for_step (step : String) (eps : List String) (fs : FS) : FS :=
  fun loc =>
    if (expected_files step).any
        (fun fn => eps.any (fun ep => decide (resolvePath step ep fn = loc)))
    then none else fs loc

/-- `delete_step_files` of `run_0_1_to_0_8.py` (lines 178-222): deletes the
declared artifacts of the named step only, for the target episodes, or for
every enumerated episode when the caller-supplied subset is empty. -/
def delete_step_files_cli (fs : FS) (episodes targets : List String)
    (step : String) : FS :=
  if (expected_files step).isEmpty then fs
  else delete_files_for_step step (if targets.isEmpty then episodes else targets) fs

/-- The ordered stage sequence of the runner scripts. -/
def steps_0_1_to_0_8 : List String :=
  ["0.1", "0.2", "0.3", "0.4", "0.5", "0.6", "0.7", "0.8"]

/-- The suffix of the stage sequence starting at the given step. -/
def steps_from (step : String) : List String :=
  steps_0_1_to_0_8.drop (steps_0_1_to_0_8.findIdx (· == step))

/-- `delete_step_files` of `web_api.py` (lines 192-245): deletes the declared
artifacts of the named step and of every subsequent step, for the target
episodes (or all enumerated episodes when the subset is empty). -/
def delete_step_files_web (fs : FS) (episodes targets : List String)
    (step : String) : FS :=
  if steps_0_1_to_0_8.contains step then
    (steps_from step).foldl
      (fun acc s =>
        delete_files_for_step s (if targets.isEmpty then episodes else targets) acc)
      fs
  else fs

/-- A filesystem holding only a stage-0.2 artifact for `episode_001`. -/
def fsC1 : FS := fun loc =>
  if loc = ArtifactLoc.episodeFile "episode_001" "0_2_clues.json"
  then some (.notJson 500) else none

/-- Abstract observable behaviour of one stage inside one run: the aggregate
status its whole-stage `run()` returned (`none` models the exception path of
`run_step`, whose result dict has no `status` key) and whether the
post-stage `check_file_integrity` probe passed. -/
structure StageOutcome where
  status : Option String
  integrityOk : Bool

/-- `_fail` (`run_0_1_to_0_8.py` lines 135-139, `web_api.py` 148-153): for
the eight pipeline steps only `completed` and `already_exists` count as
success; any other step name would accept `success`/`already_exists`. -/
def step_fail (step : String) (status : Option String) : Bool :=
  if steps_0_1_to_0_8.contains step then
    !(status == some "completed") && !(status == some "already_exists")
  else
    !(status == some "success") && !(status == some "already_exists")

/-- Success of one `run_step` call from the observed stage outcome: the
status must not fail `_fail` and the integrity probe must pass. -/
def run_step_result_ok (step : String) (status : Option String)
    (integrityOk : Bool) : Bool :=
  !step_fail step status && integrityOk

/-- Success of `run_step` for a stage, with `--skip-integrity-check`
replacing the integrity probe by a constant `True`. -/
def run_step_ok (behav : String → StageOutcome) (skipIntegrity : Bool)
    (step : String) : Bool :=
  run_step_result_ok step (behav step).status
    (skipIntegrity || (behav step).integrityOk)

/-- The stage loop of `main` / `run_pipeline`: starting from the pending
stage list, run each stage in order and stop at the first failure.  Returns
the list of stages that were actually run and whether the run completed. -/
def run_from (behav : String → StageOutcome) (skipIntegrity : Bool) :
    List String → List String × Bool
  | [] => ([], true)
  | s :: rest =>
    if run_step_ok behav skipIntegrity s then
      let r := run_from behav skipIntegrity rest
      (s :: r.1, r.2)
    else ([s], false)

/-- A run in which every stage reports `skipped` at the aggregate level with
a passing integrity probe. -/
def skippedBehavior : String → StageOutcome := fun _ => ⟨some "skipped", true⟩

/-- A configured `max_workers` value as the engine converts it: `int n` is
any value Python's `int()` maps to `n` (ints, floats truncated toward zero,
numeric strings); `nonNumeric` is any value on which `int()` raises. -/
inductive ConfVal where
  | int (n : Int)
  | nonNumeric

/-- The floor applied after conversion: `if max_workers < 1: max_workers = 1`. -/
def clamp1 (n : Int) : Int := if n < 1 then 1 else n

/-- `int()` conversion under the surrounding `try/except` with fallback `d`. -/
def int_or (v : ConfVal) (d : Int) : Int :=
  match v with
  | .int n => n
  | .nonNumeric => d

/-- Worker-pool size of step 0.5 (`step0_5_integrated_analysis.py` lines
611-622): `step_conf.get('max_workers')` (absent or null gives `None`), then
the concurrency config's `max_workers` with default 3, then `int()` with
except-fallback 3, then the floor at 1. -/
def pool_size_0_5 (stepMW globalMW : Option ConfVal) : Int :=
  clamp1 (int_or (stepMW.getD (globalMW.getD (.int 3))) 3)

/-- Worker-pool size of step 0.4 (`step0_4_speaker_calibration.py` lines
70-81): same shape as step 0.5 with per-stage default 2. -/
def pool_size_0_4 (stepMW globalMW : Option ConfVal) : Int :=
  clamp1 (int_or (stepMW.getD (globalMW.getD (.int 2))) 2)

/-- Worker-pool size of step 0.6 (`step0_6_plot_extraction.py` lines
756-776): the step entry is consulted by key presence, the
`STEP0_6_MAX_WORKERS` environment variable overrides the configured value
when it is set and `int()` succeeds on it (an `int()` failure is swallowed
and the configured value stands), `int()` failures on the result fall back
to 3, and `if not max_workers or max_workers < 1` floors at 1. -/
def pool_size_0_6 (hasStepKey : Bool) (stepMW : ConfVal)
    (globalMW : Option ConfVal) (env : Option ConfVal) : Int :=
  let base := if hasStepKey then stepMW else globalMW.getD (.int 3)
  let afterEnv := match env with
    | some (.int n) => ConfVal.int n
    | _ => base
  let n := int_or afterEnv 3
  if n == 0 || n < 1 then 1 else n

/-- Aggregate status of `Step0_8FinalScript.run()`
(`step0_8_final_script.py` lines 47-88): skip when all three outputs exist
and no override is set; `no_files` when no episode has a 0.7 script;
`failed` when the merge/convert/save block raises; `completed` otherwise.
Only the status is modelled — no claim observes 0.8's writes. -/
def run_0_8_status (fs : FS) (force : Bool) (eps : List String)
    (mergeRaises : Bool) : String :=
  if ((fs (.rootFile "0_8_merged_script.stmf")).isSome
      && (fs (.rootFile "0_8_complete_screenplay.fountain")).isSome
      && (fs (.rootFile "0_8_complete_screenplay.fdx")).isSome) && !force
  then "already_exists"
  else if (eps.filter
      (fun ep => (fs (.episodeFile ep "0_7_script.stmf")).isSome)).isEmpty then
    "no_files"
  else if mergeRaises then "failed" else "completed"

/-- Point update of the filesystem (one file write). -/
def fsWrite (fs : FS) (loc : ArtifactLoc) (d : FileData) : FS :=
  fun l => if l = loc then some d else fs l

/-- Turns artifact of step 0.5 for one episode. -/
def turns05 (ep : String) : ArtifactLoc := .episodeFile ep "0_5_dialogue_turns.json"

/-- Summary artifact of step 0.5 for one episode. -/
def summary05 (ep : String) : ArtifactLoc := .episodeFile ep "0_5_analysis_summary.md"

/-- Calibrated-dialogue input of step 0.5 (written by step 0.4). -/
def calib04 (ep : String) : ArtifactLoc := .episodeFile ep "0_4_calibrated_dialogue.txt"

/-- What the processing chain of step 0.5's `_run_single_episode`
(integrated analysis, then fallback) produces for one episode — the engine
observes only the terminal value, per the stage contract:
* `result j tSize sSize`: the chain ended with value `j`, saved as a
  `tSize`-byte turns file plus an `sSize`-byte summary when `j` has a
  truthy `dialogue_turns`;
* `procRaise e`: an exception inside the processing block, caught at line
  140 and converted to a `failed` result;
* `poolRaise e`: an exception escaping `_run_single_episode` itself, caught
  only at the worker-pool boundary of `_run_all_episodes`. -/
inductive Beh05 where
  | result (j : JsonVal) (tSize sSize : Nat)
  | procRaise (err : String)
  | poolRaise (err : String)

/-- Status and error of one per-episode call. -/
structure StepCall where
  status : String
  error : Option String

/-- `Step0_5IntegratedAnalysis._run_single_episode` (lines 79-141): skip to
`already_exists` when the turns file exists and `FORCE_OVERWRITE` is unset;
fail fast when the step-0.4 input is missing or strips to empty; otherwise
run the processing chain and save the result when it contains dialogue
turns.  The third component records whether the external processing chain
was consulted; `Except.error` models an exception escaping to the pool. -/
def run_single_0_5 (force : Bool) (beh : String → Beh05) (fs : FS)
    (ep : String) : Except String StepCall × FS × Bool :=
  if (fs (turns05 ep)).isSome && !force then
    (.ok ⟨"already_exists", none⟩, fs, false)
  else
    match fs (calib04 ep) with
    | none => (.ok ⟨"failed", some "Missing Step0.4 output"⟩, fs, false)
    | some d =>
      if d.byteSize == 0 then
        (.ok ⟨"failed", some "Empty calibrated content"⟩, fs, false)
      else
        match beh ep with
        | .poolRaise e => (.error e, fs, true)
        | .procRaise e => (.ok ⟨"failed", some ("Processing failed: " ++ e)⟩, fs, true)
        | .result j tSize sSize =>
          if getTruthy j "dialogue_turns" then
            (.ok ⟨"success", none⟩,
             fsWrite (fsWrite fs (turns05 ep) (.asJson tSize j)) (summary05 ep)
               (.notJson sSize),
             true)
          else
            (.ok ⟨"failed", some "Both integrated and fallback processing failed"⟩,
             fs, true)

/-- One per-episode entry of a stage's `results` list.  `invoked` is a ghost
field recording whether the episode's run consulted the external chain. -/
structure EpResult where
  episode_id : String
  status : String
  error : Option String
  invoked : Bool

/-- Gathered state of step 0.5's worker pool. -/
structure Gather05 where
  results : List EpResult
  fs : FS

/-- The fan-out/gather of `Step0_5IntegratedAnalysis._run_all_episodes`
(lines 626-657): every episode is submitted, an exception from a future is
converted into a structured `failed` entry for that episode only, and the
loop continues with the remaining episodes.  The source gathers results in
completion order over disjoint per-episode paths; no claim depends on the
result order, so the model processes the submission order serially. -/
def run_pool_0_5 (force : Bool) (beh : String → Beh05) :
    List String → FS → Gather05
  | [], fs => ⟨[], fs⟩
  | ep :: rest, fs =>
    let r := run_single_0_5 force beh fs ep
    let entry : EpResult :=
      match r.1 with
      | .ok c => ⟨ep, c.status, c.error, r.2.2⟩
      | .error e => ⟨ep, "failed", some e, r.2.2⟩
    let g := run_pool_0_5 force beh rest r.2.1
    ⟨entry :: g.results, g.fs⟩

/-- A stage's whole-stage aggregate: status plus per-episode results. -/
structure StageAgg where
  status : String
  results : List EpResult

/-- `Step0_5IntegratedAnalysis._run_all_episodes` (lines 605-678): the
aggregate status is the literal `completed` whatever the per-episode
results were. -/
def run_all_0_5 (force : Bool) (beh : String → Beh05) (fs : FS)
    (eps : List String) : StageAgg × FS :=
  let g := run_pool_0_5 force beh eps fs
  (⟨"completed", g.results⟩, g.fs)

/-- `check_file_integrity`'s table (`run_0_1_to_0_8.py` lines 82-92; this
CLI version also requires `0_4_dialogue_draft.txt` for step 0.4). -/
def integrity_expected_files : String → List String
  | "0.1" => ["0_1_timed_dialogue.srt"]
  | "0.2" => ["0_2_clues.json"]
  | "0.3" => ["global_character_graph_llm.json"]
  | "0.4" => ["0_4_calibrated_dialogue.txt", "0_4_dialogue_draft.txt"]
  | "0.5" => ["0_5_dialogue_turns.json"]
  | "0.6" => ["0_6_script_flow.json", "0_6_script_draft.md"]
  | "0.7" => ["0_7_script.stmf", "0_7_script_analysis.json"]
  | "0.8" => ["0_8_complete_screenplay.fountain", "0_8_complete_screenplay.fdx"]
  | _ => []

/-- One file's failure under `check_file_integrity`: missing, a `.json` file
whose bytes do not parse, or an empty non-JSON file. -/
def integrity_file_bad (fs : FS) (step ep fn : String) : Bool :=
  match fs (resolvePath step ep fn) with
  | none => true
  | some d =>
    if strEndsWith fn ".json" then
      match d with
      | .asJson _ _ => false
      | .notJson _ => true
    else decide (d.byteSize == 0)

/-- `check_file_integrity` (`run_0_1_to_0_8.py` lines 76-132): passes when
no (episode, required file) pair is missing or corrupted; unknown steps
pass trivially. -/
def check_file_integrity (fs : FS) (eps : List String) (step : String) : Bool :=
  !(eps.any (fun ep => (integrity_expected_files step).any
      (fun fn => integrity_file_bad fs step ep fn)))

/-- Lexicographic order on character lists. -/
def charListLt : List Char → List Char → Bool
  | [], [] => false
  | [], _ :: _ => true
  | _ :: _, [] => false
  | a :: as, b :: bs => if a < b then true else if b < a then false else charListLt as bs

/-- Kernel-computable `<` on strings. -/
def strLt (a b : String) : Bool := charListLt a.data b.data

/-- Insertion into a sorted string list. -/
def insertSorted (x : String) : List String → List String
  | [] => [x]
  | y :: rest => if strLt x y then x :: y :: rest else y :: insertSorted x rest

/-- Python `sorted` on a string list (insertion sort). -/
def sortStrings : List String → List String
  | [] => []
  | x :: rest => insertSorted x (sortStrings rest)

/-- Python `s.strip()`. -/
def strTrim (s : String) : String :=
  ⟨((s.data.dropWhile Char.isWhitespace).reverse.dropWhile Char.isWhitespace).reverse⟩

/-- Whether `pat` occurs in some position of the character list. -/
def subAux (pat : List Char) : List Char → Bool
  | [] => listStartsWith [] pat
  | c :: rest => listStartsWith (c :: rest) pat || subAux pat rest

/-- Python `pat in hay` on strings (substring containment). -/
def strContainsSub (hay pat : String) : Bool := subAux pat.data hay.data

/-- Python `s.strip("; ")`. -/
def stripSemiSpace (s : String) : String :=
  ⟨((s.data.dropWhile (fun c => c == ';' || c == ' ')).reverse.dropWhile
      (fun c => c == ';' || c == ' ')).reverse⟩

/-- Exact average of two rationals, built from `mkRat` so that it reduces in
the kernel. -/
def ratAvg (a b : Rat) : Rat :=
  mkRat (a.num * (b.den : Int) + b.num * (a.den : Int)) (2 * a.den * b.den)

/-- Python `round(x, 4)` idealised on exact rationals (round half to even). -/
def round4 (x : Rat) : Rat :=
  let n : Int := x.num * 10000
  let d : Int := (x.den : Int)
  let f : Int := n / d
  let r : Int := n - f * d
  let k : Int :=
    if 2 * r < d then f
    else if d < 2 * r then f + 1
    else if f % 2 == 0 then f else f + 1
  mkRat k 10000

/-- Python `(x or "")` for a string field; a non-string truthy value (on
which `.strip()` would raise) is mapped to the empty string. -/
def pyStr (o : Option JsonVal) : String :=
  match o with
  | some (.str s) => s
  | _ => ""

/-- Python `d.get(k, default)` for a string field. -/
def pyStrD (o : Option JsonVal) (d : String) : String :=
  match o with
  | some (.str s) => s
  | _ => d

/-- Python `float(x or d)`; non-numeric truthy values (on which `float()`
would raise) are mapped to the default. -/
def pyFloatD (o : Option JsonVal) (d : Rat) : Rat :=
  match o with
  | some (.num q) => if q.num == 0 then d else q
  | _ => d

/-- Python `int(d.get(k, default))`, truncating toward zero. -/
def pyIntD (o : Option JsonVal) (d : Int) : Int :=
  match o with
  | some (.num q) => q.num.tdiv (q.den : Int)
  | _ => d

/-- Python `d.get(k, default)`. -/
def jsonGetD (j : JsonVal) (key : String) (d : JsonVal) : JsonVal :=
  match jsonGet j key with
  | some v => v
  | none => d

/-- The element list of a JSON array (`[]` for anything else). -/
def asArr : JsonVal → List JsonVal
  | .arr l => l
  | _ => []

/-- Set or overwrite one field of an object's field list. -/
def objSetFields : List (String × JsonVal) → String → JsonVal → List (String × JsonVal)
  | [], k, v => [(k, v)]
  | (k0, v0) :: rest, k, v =>
    if k0 == k then (k0, v) :: rest else (k0, v0) :: objSetFields rest k v

/-- Python `d[k] = v` (identity on non-dicts, which would raise). -/
def objSet (j : JsonVal) (k : String) (v : JsonVal) : JsonVal :=
  match j with
  | .obj fields => .obj (objSetFields fields k v)
  | _ => j

/-- Python `d.setdefault(k, v)`'s effect on the dict. -/
def ensureKey (j : JsonVal) (k : String) (v : JsonVal) : JsonVal :=
  match jsonGet j k with
  | some _ => j
  | none => objSet j k v

/-- Insert/overwrite in the `name_to_idx` dict. -/
def setIdx : List (String × Nat) → String → Nat → List (String × Nat)
  | [], k, v => [(k, v)]
  | (k0, v0) :: rest, k, v =>
    if k0 == k then (k0, v) :: rest else (k0, v0) :: setIdx rest k v

/-- Lookup in the `name_to_idx` dict. -/
def getIdx : List (String × Nat) → String → Option Nat
  | [], _ => none
  | (k0, v0) :: rest, k => if k0 == k then some v0 else getIdx rest k

/-- `{c.get("canonical_name", ""): idx for idx, c in enumerate(characters)}`
(later duplicates overwrite earlier ones, as in a Python dict display). -/
def initNameIdx (chars : List JsonVal) : List (String × Nat) :=
  chars.enum.foldl
    (fun m p => setIdx m (pyStrD (jsonGet p.2 "canonical_name") "") p.1) []

/-- In-place update of the list element at an index. -/
def listModify (f : JsonVal → JsonVal) : Nat → List JsonVal → List JsonVal
  | _, [] => []
  | 0, x :: rest => f x :: rest
  | n + 1, x :: rest => x :: listModify f n rest

/-- `_merge_prior`'s update of one existing character entry: merge the new
traits unless already contained, bump the evidence count, average the
confidence (rounded to 4 decimals), and re-sort the source set with this
episode added (non-string members of `sources` are dropped, where Python's
mixed-type `sorted` would raise). -/
def updateChar (ep traits : String) (conf : Rat) (ch : JsonVal) : JsonVal :=
  let oldTraits := pyStrD (jsonGet ch "traits_brief") ""
  let ch1 :=
    if traits != "" && !strContainsSub oldTraits traits then
      objSet ch "traits_brief"
        (.str (if oldTraits == "" then traits
               else stripSemiSpace (oldTraits ++ "; " ++ traits)))
    else ch
  let ch2 := objSet ch1 "evidence_count"
      (.num ((pyIntD (jsonGet ch1 "evidence_count") 0 + 1 : Int) : Rat))
  let oldConf := pyFloatD (jsonGet ch2 "confidence") conf
  let ch3 := objSet ch2 "confidence" (.num (round4 (ratAvg oldConf conf)))
  let srcs := (asArr (jsonGetD ch3 "sources" (.arr []))).filterMap
      (fun v => match v with | .str s => some s | _ => none)
  objSet ch3 "sources" (.arr ((sortStrings ((srcs ++ [ep]).eraseDups)).map .str))

/-- `_merge_prior`'s fresh character entry. -/
def newChar (ep name traits : String) (conf : Rat) : JsonVal :=
  .obj [("canonical_name", .str name), ("aliases", .arr []),
        ("traits_brief", .str traits), ("evidence_count", .num 1),
        ("confidence", .num (round4 conf)), ("sources", .arr [.str ep])]

/-- One `explicit_characters` record folded into (characters, name_to_idx):
records with an empty (or non-string) stripped name are skipped. -/
def mergeOneEC (ep : String) (acc : List JsonVal × List (String × Nat))
    (ec : JsonVal) : List JsonVal × List (String × Nat) :=
  let name := strTrim (pyStr (jsonGet ec "name"))
  if name == "" then acc
  else
    let traits := strTrim (pyStr (jsonGet ec "traits"))
    let conf := pyFloatD (jsonGet ec "confidence") (mkRat 6 10)
    match getIdx acc.2 name with
    | some idx => (listModify (updateChar ep traits conf) idx acc.1, acc.2)
    | none => (acc.1 ++ [newChar ep name traits conf], setIdx acc.2 name acc.1.length)

/-- `Step0_2ClueExtraction._merge_prior` (lines 344-396): read this
episode's saved clues file (a missing or unparseable file leaves the prior
unchanged), ensure the `characters` / `name_variants` keys, and fold every
explicit character into the prior's character list. -/
def merge_prior (fs : FS) (ep : String) (prior : JsonVal) : JsonVal :=
  match fs (.episodeFile ep "0_2_clues.json") with
  | none => prior
  | some (.notJson _) => prior
  | some (.asJson _ data) =>
    let p1 := ensureKey prior "characters" (.arr [])
    let p2 := ensureKey p1 "name_variants" (.obj [])
    let chars0 := asArr (jsonGetD p2 "characters" (.arr []))
    let ecs := asArr (jsonGetD data "explicit_characters" (.arr []))
    let res := ecs.foldl (mergeOneEC ep) (chars0, initNameIdx chars0)
    objSet p2 "characters" (.arr res.1)

/-- `_load_prior`'s default structure. -/
def defaultPrior : JsonVal :=
  .obj [("version", .num 1), ("updated_at", .str ""),
        ("characters", .arr []), ("name_variants", .obj [])]

/-- The cross-episode prior file written by step 0.2. -/
def priorLoc : ArtifactLoc := .rootFile "0_2_prior.json"

/-- `Step0_2ClueExtraction._load_prior` (lines 301-314): parse the prior
file; a missing or unparseable file yields the default structure. -/
def load_prior (fs : FS) : JsonVal :=
  match fs priorLoc with
  | some (.asJson _ j) => j
  | _ => defaultPrior

/-- Clues artifact of step 0.2 for one episode. -/
def clues02 (ep : String) : ArtifactLoc := .episodeFile ep "0_2_clues.json"

/-- SRT transcript input of step 0.2. -/
def srt01 (ep : String) : ArtifactLoc := .episodeFile ep "0_1_timed_dialogue.srt"

/-- Legacy TXT transcript input of step 0.2. -/
def txt01 (ep : String) : ArtifactLoc := .episodeFile ep "0_1_timed_dialogue.txt"

/-- The terminal value of step 0.2's retry loop for one episode:
`result j size` is the final `result` value (the loop's fallback guarantees
one exists even after total failure); `raiseExc` models an exception
escaping `_run_single_episode` (for example while reading inputs). -/
inductive Beh02 where
  | result (j : JsonVal) (size : Nat)
  | raiseExc (err : String)

/-- `Step0_2ClueExtraction._run_single_episode` (lines 80-299): skip to
`already_exists` when the clues file exists and `FORCE_OVERWRITE` is unset;
fail when neither transcript input exists; otherwise build the prompt from
the injected prior, run the retry chain, stamp `episode_id` into a dict
result and save it.  A non-dict terminal value is still saved, after which
`result.get(...)` raises and escapes to the episode loop.  The third
component is a ghost recording the prior injected into the prompt. -/
def run_single_0_2 (force : Bool) (beh : String → Beh02) (fs : FS)
    (ep : String) (prior : JsonVal) :
    Except String StepCall × FS × Option JsonVal :=
  if (fs (clues02 ep)).isSome && !force then
    (.ok ⟨"already_exists", none⟩, fs, none)
  else if (fs (srt01 ep)).isNone && (fs (txt01 ep)).isNone then
    (.ok ⟨"failed", some "missing ASR input"⟩, fs, none)
  else
    match beh ep with
    | .raiseExc e => (.error e, fs, some prior)
    | .result j sz =>
      match j with
      | .obj fields =>
        (.ok ⟨"success", none⟩,
         fsWrite fs (clues02 ep)
           (.asJson sz (objSet (.obj fields) "episode_id" (.str ep))),
         some prior)
      | _ =>
        (.error "result has no attribute get",
         fsWrite fs (clues02 ep) (.asJson sz j), some prior)

/-- One per-episode entry of step 0.2's `results` list; `usedPrior` is a
ghost recording the prior injected into the prompt when extraction ran. -/
structure Res02 where
  episode_id : String
  status : String
  error : Option String
  usedPrior : Option JsonVal

/-- Fallback `Res02` used to state witness instances. -/
def res02default : Res02 := ⟨"", "", none, none⟩

/-- One iteration of the serial episode loop of
`Step0_2ClueExtraction._run_all_episodes` (lines 51-65) acting on the
(filesystem, in-memory prior) state: run the episode with the current
prior, then merge this episode's saved clues into the prior, stamp
`updated_at` and save the prior file; an exception skips the merge and
save.  (The saved prior's byte size is irrelevant to every check and is
modelled as 0.) -/
def step_0_2_once (force : Bool) (beh : String → Beh02) (now : String)
    (st : FS × JsonVal) (ep : String) : FS × JsonVal :=
  match run_single_0_2 force beh st.1 ep st.2 with
  | (.error _, fs1, _) => (fs1, st.2)
  | (.ok _, fs1, _) =>
    let p1 := objSet (merge_prior fs1 ep st.2) "updated_at" (.str now)
    (fsWrite fs1 priorLoc (.asJson 0 p1), p1)

/-- The serial episode loop of step 0.2, also collecting the per-episode
results (exceptions become structured `failed` entries and skip the
merge). -/
def run_loop_0_2 (force : Bool) (beh : String → Beh02) (now : String) :
    List String → FS × JsonVal → List Res02 × (FS × JsonVal)
  | [], st => ([], st)
  | ep :: rest, st =>
    let r := run_single_0_2 force beh st.1 ep st.2
    let entry : Res02 :=
      match r.1 with
      | .ok c => ⟨ep, c.status, c.error, r.2.2⟩
      | .error e => ⟨ep, "failed", some e, r.2.2⟩
    let g := run_loop_0_2 force beh now rest (step_0_2_once force beh now st ep)
    (entry :: g.1, g.2)

/-- A step-0.2 whole-stage aggregate. -/
structure StageAgg02 where
  status : String
  results : List Res02

/-- `Step0_2ClueExtraction._run_all_episodes` (lines 41-78): episodes are
processed serially in sorted order with the threaded prior, and the
aggregate status is the literal `completed`. -/
def run_all_0_2 (force : Bool) (beh : String → Beh02) (now : String)
    (fs : FS) (eps : List String) : StageAgg02 × (FS × JsonVal) :=
  let g := run_loop_0_2 force beh now (sortStrings eps) (fs, load_prior fs)
  (⟨"completed", g.1⟩, g.2)

/-- Reference prefix fold for claim C7: the (filesystem, prior) state after
serially processing a list of episodes. -/
def state_0_2_after (force : Bool) (beh : String → Beh02) (now : String)
    (fs0 : FS) (pr0 : JsonVal) (pre : List String) : FS × JsonVal :=
  pre.foldl (step_0_2_once force beh now) (fs0, pr0)

/-- Witness scenario for partial-failure isolation: episodes 001 and 003
have non-empty calibrated inputs, episode 002 has none. -/
def fsC4 : FS := fun loc =>
  if loc = calib04 "episode_001" then some (.notJson 150)
  else if loc = calib04 "episode_003" then some (.notJson 150)
  else none

/-- Witness behaviour for step 0.5: every processed episode produces a
non-empty dialogue-turns document. -/
def behC4 : String → Beh05 := fun _ =>
  .result (.obj [("dialogue_turns", .arr [.str "t"])]) 300 100

/-- Episode set of the partial-failure witness scenario. -/
def eps4 : List String := ["episode_001", "episode_002", "episode_003"]

/-- Witness filesystem with a valid stage-0.5 artifact for `episode_001`. -/
def fsC5 : FS := fun loc =>
  if loc = turns05 "episode_001"
  then some (.asJson 300 (.obj [("dialogue_turns", .arr [.str "x"])]))
  else none

/-- Witness filesystem for step 0.2: both episodes have transcripts, no
clues files and no prior file. -/
def fsC7 : FS := fun loc =>
  if loc = srt01 "episode_001" then some (.notJson 4000)
  else if loc = srt01 "episode_002" then some (.notJson 4000)
  else none

/-- Witness behaviour for step 0.2: every episode extracts one explicit
character named after the episode. -/
def behC7 : String → Beh02 := fun ep =>
  .result (.obj [("episode_id", .str ep),
    ("explicit_characters",
      .arr [.obj [("name", .str ep), ("appearance_method", .str "onscreen_name"),
        ("confidence", .num 1), ("traits", .str "t"),
        ("evidence_quote", .str "q"), ("evidence_modality", .str "subtitle")]]),
    ("speaker_profiles", .arr []), ("observed_interactions", .arr [])]) 500

/-- The step-0.2 run of the C7 witness scenario (episodes supplied out of
order). -/
def runC7 : StageAgg02 × (FS × JsonVal) :=
  run_all_0_2 false behC7 "ts" fsC7 ["episode_002", "episode_001"]

/-! ### Theorems -/

theorem episode_invalid_eq_not_unit_valid (fs : FS) (step ep : String) :
    episode_invalid fs step ep = !unit_valid fs step ep := by
  unfold episode_invalid unit_valid
  induction expected_files step with
  | nil => rfl
  | cons fn rest ih =>
    simp only [List.any_cons, List.all_cons, Bool.not_and, Bool.not_not]
    rw [ih]

/-- Claim C6: the validity check classifies a JSON artifact parsing to `{}`
as invalid (generic non-empty rule); a stage-0.5 artifact parsing to
`{"dialogue_turns": []}` with no `turns`/`dialogues` key as invalid; a
non-JSON flat-text artifact of 40 bytes as invalid under the 100-byte
floor, and one of 150 bytes as valid; and an artifact whose bytes fail to
parse as JSON as invalid (the parse exception is caught, not propagated). -/
theorem C6_validity_examples :
    file_invalid "0.2" "0_2_clues.json" (.asJson 2 (.obj [])) = true
    ∧ file_invalid "0.5" "0_5_dialogue_turns.json"
        (.asJson 25 (.obj [("dialogue_turns", .arr [])])) = true
    ∧ file_invalid "0.4" "0_4_calibrated_dialogue.txt" (.notJson 40) = true
    ∧ file_invalid "0.4" "0_4_calibrated_dialogue.txt" (.notJson 150) = false
    ∧ file_invalid "0.2" "0_2_clues.json" (.notJson 120) = true := by
  refine ⟨by decide, by decide, by decide, by decide, by decide⟩

/-- `List.filter` with a pointwise-constant predicate keeps everything or
nothing. -/
theorem filter_of_const {α : Type} (p : α → Bool) (b : Bool) (l : List α)
    (h : ∀ a, p a = b) : l.filter p = if b then l else [] := by
  induction l with
  | nil => cases b <;> rfl
  | cons a rest ih =>
    cases hb : b <;> simp only [List.filter_cons, h, hb, ih] <;> simp [hb]

/-- For the project-global steps the resolved path ignores the episode, so
`episode_invalid` does not depend on which episode is probed. -/
theorem episode_invalid_const_of_global (fs : FS) (step : String)
    (h : step = "0.3" ∨ step = "0.8") (a b : String) :
    episode_invalid fs step a = episode_invalid fs step b := by
  rcases h with h | h <;> subst h <;> rfl

/-- Claim C10: the invalid-episode list only contains enumerated episodes,
contains each at most once (the inner scan breaks at the first failing
file), and for the project-global steps 0.3 and 0.8 — whose single shared
path is probed once per episode — it is all-or-nothing: empty or the full
enumeration. -/
theorem C10_invalid_list_shape (fs : FS) (eps : List String) (step : String) :
    (∀ ep ∈ check_invalid_files fs eps step, ep ∈ eps)
    ∧ (eps.Nodup → (check_invalid_files fs eps step).Nodup)
    ∧ ((step = "0.3" ∨ step = "0.8") →
        check_invalid_files fs eps step = [] ∨ check_invalid_files fs eps step = eps) := by
  refine ⟨fun ep h => (List.mem_filter.mp h).1, fun h => h.filter _, fun hg => ?_⟩
  have hconst : ∀ a, episode_invalid fs step a = episode_invalid fs step "" :=
    fun a => episode_invalid_const_of_global fs step hg a ""
  have := filter_of_const (fun ep => episode_invalid fs step ep)
    (episode_invalid fs step "") eps hconst
  unfold check_invalid_files
  rw [this]
  cases episode_invalid fs step "" <;> simp

theorem C10_witness :
    (check_invalid_files (fun _ => none) ["episode_001", "episode_002"] "0.3").Nodup
    ∧ (check_invalid_files (fun _ => none) ["episode_001", "episode_002"] "0.3" = []
        ∨ check_invalid_files (fun _ => none) ["episode_001", "episode_002"] "0.3"
          = ["episode_001", "episode_002"]) :=
  ⟨(C10_invalid_list_shape (fun _ => none) ["episode_001", "episode_002"] "0.3").2.1
      (by decide),
   (C10_invalid_list_shape (fun _ => none) ["episode_001", "episode_002"] "0.3").2.2
      (Or.inl rfl)⟩

/-- Claim C3: `check_invalid_files` returns exactly the enumerated episodes
whose artifacts for the step fail the validity check, and when that list is
empty the `fix_invalid` gate reports that nothing needs repair without
invoking any stage. -/
theorem C3_fix_invalid_selection (fs : FS) (eps : List String) (step : String) :
    (∀ ep, ep ∈ check_invalid_files fs eps step
        ↔ ep ∈ eps ∧ unit_valid fs step ep = false)
    ∧ (check_invalid_files fs eps step = [] →
        fix_invalid_gate fs eps step = .nothingToFix) := by
  constructor
  · intro ep
    unfold check_invalid_files
    rw [List.mem_filter, episode_invalid_eq_not_unit_valid]
    simp
  · intro h
    unfold fix_invalid_gate
    simp [h]

theorem C3_witness :
    fix_invalid_gate fsAllValid02 ["episode_001"] "0.2" = .nothingToFix
    ∧ ("episode_001" ∈ check_invalid_files fsAllValid02 ["episode_001"] "0.2"
        ↔ "episode_001" ∈ ["episode_001"]
          ∧ unit_valid fsAllValid02 "0.2" "episode_001" = false) :=
  ⟨(C3_fix_invalid_selection fsAllValid02 ["episode_001"] "0.2").2 (by decide),
   (C3_fix_invalid_selection fsAllValid02 ["episode_001"] "0.2").1 "episode_001"⟩

theorem delete_files_hits (step : String) (eps : List String) (fs : FS)
    (fn ep : String) (hfn : fn ∈ expected_files step) (hep : ep ∈ eps) :
    delete_files_for_step step eps fs (resolvePath step ep fn) = none := by
  unfold delete_files_for_step
  rw [if_pos]
  refine List.any_eq_true.mpr ⟨fn, hfn, List.any_eq_true.mpr ⟨ep, hep, by simp⟩⟩

theorem delete_files_keeps_none (step : String) (eps : List String) (fs : FS)
    (loc : ArtifactLoc) (h : fs loc = none) :
    delete_files_for_step step eps fs loc = none := by
  unfold delete_files_for_step
  split <;> simp [h]

theorem delete_files_misses (step : String) (eps : List String) (fs : FS)
    (loc : ArtifactLoc)
    (h : ∀ fn ∈ expected_files step, ∀ ep ∈ eps, resolvePath step ep fn ≠ loc) :
    delete_files_for_step step eps fs loc = fs loc := by
  unfold delete_files_for_step
  rw [if_neg]
  intro hany
  rcases List.any_eq_true.mp hany with ⟨fn, hfn, hin⟩
  rcases List.any_eq_true.mp hin with ⟨ep, hep, heq⟩
  exact h fn hfn ep hep (of_decide_eq_true heq)

theorem foldl_delete_keeps_none (l : List String) (eps : List String) (fs : FS)
    (loc : ArtifactLoc) (h : fs loc = none) :
    (l.foldl (fun acc s => delete_files_for_step s eps acc) fs) loc = none := by
  induction l generalizing fs with
  | nil => exact h
  | cons a rest ih =>
    exact ih _ (delete_files_keeps_none a eps fs loc h)

theorem foldl_delete_mem (l : List String) (eps : List String) (fs : FS)
    (s fn ep : String) (hs : s ∈ l) (hfn : fn ∈ expected_files s) (hep : ep ∈ eps) :
    (l.foldl (fun acc s => delete_files_for_step s eps acc) fs)
      (resolvePath s ep fn) = none := by
  induction l generalizing fs with
  | nil => cases hs
  | cons a rest ih =>
    rcases List.mem_cons.mp hs with rfl | hs2
    · exact foldl_delete_keeps_none rest eps _ _ (delete_files_hits s eps fs fn ep hfn hep)
    · exact ih _ hs2

/-- Claim C1 (amended): the web-API `delete_step_files` cascades — it removes
every declared artifact of the start stage and of every subsequent stage for
the targeted episodes (all enumerated episodes when no subset is supplied) —
whereas the CLI `delete_step_files` of `run_0_1_to_0_8.py` removes exactly
the declared artifacts of the start stage itself and leaves every other
location untouched. -/
theorem C1_force_rerun_deletion (fs : FS) (episodes targets : List String)
    (S : String) (hS : steps_0_1_to_0_8.contains S = true) :
    (∀ s ∈ steps_from S, ∀ fn ∈ expected_files s,
        ∀ ep ∈ (if targets.isEmpty then episodes else targets),
        delete_step_files_web fs episodes targets S (resolvePath s ep fn) = none)
    ∧ (∀ fn ∈ expected_files S, ∀ ep ∈ (if targets.isEmpty then episodes else targets),
        delete_step_files_cli fs episodes targets S (resolvePath S ep fn) = none)
    ∧ (∀ loc : ArtifactLoc,
        (∀ fn ∈ expected_files S, ∀ ep ∈ (if targets.isEmpty then episodes else targets),
            resolvePath S ep fn ≠ loc) →
        delete_step_files_cli fs episodes targets S loc = fs loc) := by
  refine ⟨?_, ?_, ?_⟩
  · intro s hs fn hfn ep hep
    unfold delete_step_files_web
    rw [if_pos hS]
    exact foldl_delete_mem _ _ fs s fn ep hs hfn hep
  · intro fn hfn ep hep
    unfold delete_step_files_cli
    have hne : (expected_files S).isEmpty = false := by
      cases hE : expected_files S with
      | nil => rw [hE] at hfn; cases hfn
      | cons a rest => rfl
    rw [hne]
    exact delete_files_hits S _ fs fn ep hfn hep
  · intro loc hmiss
    unfold delete_step_files_cli
    cases hE : (expected_files S).isEmpty
    · exact delete_files_misses S _ fs loc hmiss
    · rfl

/-- Claim C1 is false as stated for the CLI entry point: starting
`force_rerun` at stage 0.1, the stage-0.2 artifact of the targeted episode
is a declared artifact of a subsequent stage, yet the CLI
`delete_step_files` leaves it on disk. -/
theorem C1_counterexample :
    (delete_step_files_cli fsC1 ["episode_001"] [] "0.1"
        (ArtifactLoc.episodeFile "episode_001" "0_2_clues.json")).isSome = true := by
  decide

theorem C1_witness :
    delete_step_files_web fsC1 ["episode_001"] [] "0.2"
      (resolvePath "0.5" "episode_001" "0_5_dialogue_turns.json") = none :=
  (C1_force_rerun_deletion fsC1 ["episode_001"] [] "0.2" (by decide)).1
    "0.5" (by decide) "0_5_dialogue_turns.json" (by decide) "episode_001" (by decide)

/-- Claim C2 (amended): stages are visited strictly in ascending order from
the start stage, and the run completes when every pending stage passes
`run_step`, otherwise it fails exactly at the first stage whose aggregate
status is outside `{completed, already_exists}` or whose integrity probe
fails, and no later stage is executed. -/
theorem C2_stage_ordering_failfast (behav : String → StageOutcome)
    (skip : Bool) (l : List String) :
    (run_from behav skip l = (l, true) ∧ ∀ s ∈ l, run_step_ok behav skip s = true)
    ∨ (∃ pre s suf, l = pre ++ s :: suf
        ∧ (∀ t ∈ pre, run_step_ok behav skip t = true)
        ∧ run_step_ok behav skip s = false
        ∧ run_from behav skip l = (pre ++ [s], false)) := by
  induction l with
  | nil => exact Or.inl ⟨rfl, by simp⟩
  | cons s rest ih =>
    by_cases h : run_step_ok behav skip s = true
    · rcases ih with ⟨h1, h2⟩ | ⟨pre, t, suf, he, hpre, hfail, hrun⟩
      · refine Or.inl ⟨?_, ?_⟩
        · simp [run_from, h, h1]
        · intro t ht
          rcases List.mem_cons.mp ht with rfl | ht2
          · exact h
          · exact h2 t ht2
      · refine Or.inr ⟨s :: pre, t, suf, by rw [he]; rfl, ?_, hfail, ?_⟩
        · intro u hu
          rcases List.mem_cons.mp hu with rfl | hu2
          · exact h
          · exact hpre u hu2
        · simp [run_from, h, hrun]
    · refine Or.inr ⟨[], s, rest, rfl, by simp, eq_false_of_ne_true h, ?_⟩
      simp [run_from, eq_false_of_ne_true h]

/-- Claim C2 is false as stated: the claim's accepted status set includes
`skipped` (and `success`), but `_fail` accepts only `completed` and
`already_exists` for steps 0.1-0.8, so a run whose first stage reports the
aggregate status `skipped` is marked failed at that stage. -/
theorem C2_counterexample :
    run_from skippedBehavior false steps_0_1_to_0_8 = (["0.1"], false)
    ∧ step_fail "0.1" (some "skipped") = true := by
  refine ⟨by decide, by decide⟩

theorem one_le_clamp1 (n : Int) : 1 ≤ clamp1 n := by
  unfold clamp1
  split
  · exact le_refl 1
  · omega

theorem pool_floor_eq_clamp1 (n : Int) :
    (if n == 0 || n < 1 then 1 else n) = clamp1 n := by
  unfold clamp1
  by_cases h : n < 1
  · simp [h]
  · have h0 : ¬n = 0 := by omega
    simp [h, h0]

/-- Claim C8 (amended): every stage's worker pool size is at least 1, for
any configured value (zero, negative, or non-numeric values included); for
stages 0.4 and 0.5 the value comes from the stage's own configuration entry
when present and otherwise from the project-wide concurrency default (3 for
step 0.5, 2 for step 0.4 when that default is absent), clamped at 1; stage
0.6 follows the same rule only when the `STEP0_6_MAX_WORKERS` environment
variable is unset, since a numeric environment value overrides the
configuration. -/
theorem C8_pool_size (stepMW globalMW : Option ConfVal) (hasKey : Bool)
    (v : ConfVal) (env : Option ConfVal) (n : Int) :
    (1 ≤ pool_size_0_5 stepMW globalMW)
    ∧ (1 ≤ pool_size_0_4 stepMW globalMW)
    ∧ (1 ≤ pool_size_0_6 hasKey v globalMW env)
    ∧ (pool_size_0_5 (some (.int n)) globalMW = clamp1 n)
    ∧ (pool_size_0_5 none globalMW = clamp1 (int_or (globalMW.getD (.int 3)) 3))
    ∧ (env = none → pool_size_0_6 hasKey v globalMW env
        = clamp1 (int_or (if hasKey then v else globalMW.getD (.int 3)) 3)) := by
  refine ⟨one_le_clamp1 _, one_le_clamp1 _, ?_, rfl, rfl, ?_⟩
  · unfold pool_size_0_6
    rw [pool_floor_eq_clamp1]
    exact one_le_clamp1 _
  · intro henv
    subst henv
    unfold pool_size_0_6
    rw [pool_floor_eq_clamp1]

/-- Claim C8 is false as stated for stage 0.6: with the stage's own
configuration entry present and equal to 5, a numeric
`STEP0_6_MAX_WORKERS=2` environment value makes the pool size 2, not the
configured 5. -/
theorem C8_counterexample :
    pool_size_0_6 true (.int 5) none (some (.int 2)) = 2
    ∧ pool_size_0_6 true (.int 5) none (some (.int 2)) ≠ 5 := by
  refine ⟨by decide, by decide⟩

theorem C8_witness :
    pool_size_0_6 false (.int 9) (some (.int 7)) none = clamp1 (int_or (.int 7) 3) :=
  (C8_pool_size none (some (.int 7)) false (.int 9) none 0).2.2.2.2.2 rfl

/-- Claim C9 is false as stated: stage 0.8's whole-stage `run()` returns
normally with the aggregate status `no_files` when no episode has a 0.7
script, which is not the literal `completed`. -/
theorem C9_counterexample :
    run_0_8_status (fun _ => none) false ["episode_001"] false = "no_files"
    ∧ run_0_8_status (fun _ => none) false ["episode_001"] false ≠ "completed" := by
  refine ⟨by decide, by decide⟩

theorem bool_and_left {a b : Bool} (h : (a && b) = true) : a = true := by
  cases a
  · cases h
  · rfl

theorem fsWrite_at (fs : FS) (loc : ArtifactLoc) (d : FileData) :
    fsWrite fs loc d loc = some d := by
  unfold fsWrite
  rw [if_pos rfl]

theorem fsWrite_ne (fs : FS) (loc : ArtifactLoc) (d : FileData)
    (l : ArtifactLoc) (h : l ≠ loc) : fsWrite fs loc d l = fs l := by
  unfold fsWrite
  rw [if_neg h]

theorem fsWrite_isSome (fs : FS) (loc : ArtifactLoc) (d : FileData)
    (l : ArtifactLoc) (h : (fs l).isSome = true) :
    ((fsWrite fs loc d) l).isSome = true := by
  unfold fsWrite
  split <;> simp [h]

theorem turns05_ne_summary05 (a b : String) : turns05 a ≠ summary05 b := by
  simp [turns05, summary05]

theorem turns05_ne_calib04 (a b : String) : turns05 a ≠ calib04 b := by
  simp [turns05, calib04]

theorem summary05_ne_calib04 (a b : String) : summary05 a ≠ calib04 b := by
  simp [summary05, calib04]

theorem turns05_ne_of_ne {a b : String} (h : a ≠ b) : turns05 a ≠ turns05 b := by
  simp [turns05, h]

/-- Exhaustive characterization of `run_single_0_5`'s branches. -/
theorem run_single_0_5_cases (force : Bool) (beh : String → Beh05) (fs : FS)
    (ep : String) :
    (run_single_0_5 force beh fs ep = (.ok ⟨"already_exists", none⟩, fs, false)
        ∧ (fs (turns05 ep)).isSome = true)
    ∨ (∃ err inv, (run_single_0_5 force beh fs ep).1 = .ok ⟨"failed", err⟩
        ∧ (run_single_0_5 force beh fs ep).2.1 = fs
        ∧ (run_single_0_5 force beh fs ep).2.2 = inv)
    ∨ (∃ e, (run_single_0_5 force beh fs ep).1 = .error e
        ∧ (run_single_0_5 force beh fs ep).2.1 = fs)
    ∨ (∃ j t s, (run_single_0_5 force beh fs ep).1 = .ok ⟨"success", none⟩
        ∧ (run_single_0_5 force beh fs ep).2.1
            = fsWrite (fsWrite fs (turns05 ep) (.asJson t j)) (summary05 ep)
                (.notJson s)) := by
  unfold run_single_0_5
  repeat' split
  all_goals first
    | (rename_i hcond; exact Or.inl ⟨rfl, bool_and_left hcond⟩)
    | exact Or.inr (Or.inl ⟨_, _, rfl, rfl, rfl⟩)
    | exact Or.inr (Or.inr (Or.inl ⟨_, rfl, rfl⟩))
    | exact Or.inr (Or.inr (Or.inr ⟨_, _, _, rfl, rfl⟩))

theorem run_single_0_5_mono (force : Bool) (beh : String → Beh05) (fs : FS)
    (ep : String) (l : ArtifactLoc) (h : (fs l).isSome = true) :
    (((run_single_0_5 force beh fs ep).2.1) l).isSome = true := by
  rcases run_single_0_5_cases force beh fs ep with
    ⟨heq, _⟩ | ⟨_, _, _, hfs, _⟩ | ⟨_, _, hfs⟩ | ⟨_, _, _, _, hfs⟩
  · rw [heq]; exact h
  · rw [hfs]; exact h
  · rw [hfs]; exact h
  · rw [hfs]; exact fsWrite_isSome _ _ _ _ (fsWrite_isSome _ _ _ _ h)

theorem run_single_0_5_untouched (force : Bool) (beh : String → Beh05)
    (fs : FS) (ep : String) (l : ArtifactLoc)
    (h1 : l ≠ turns05 ep) (h2 : l ≠ summary05 ep) :
    ((run_single_0_5 force beh fs ep).2.1) l = fs l := by
  rcases run_single_0_5_cases force beh fs ep with
    ⟨heq, _⟩ | ⟨_, _, _, hfs, _⟩ | ⟨_, _, hfs⟩ | ⟨_, _, _, _, hfs⟩
  · rw [heq]
  · rw [hfs]
  · rw [hfs]
  · rw [hfs, fsWrite_ne _ _ _ _ h2, fsWrite_ne _ _ _ _ h1]

theorem run_single_0_5_status_present (force : Bool) (beh : String → Beh05)
    (fs : FS) (ep : String) (c : StepCall)
    (hc : (run_single_0_5 force beh fs ep).1 = .ok c)
    (hst : c.status = "success" ∨ c.status = "already_exists") :
    (((run_single_0_5 force beh fs ep).2.1) (turns05 ep)).isSome = true := by
  rcases run_single_0_5_cases force beh fs ep with
    ⟨heq, hsome⟩ | ⟨err, inv, h1, hfs, _⟩ | ⟨e, h1, _⟩ | ⟨j, t, s, h1, hfs⟩
  · rw [heq]; exact hsome
  · have h3 := hc.symm.trans h1
    injection h3 with h4
    subst h4
    simp at hst
  · exact Except.noConfusion (hc.symm.trans h1)
  · rw [hfs, fsWrite_ne _ _ _ _ (turns05_ne_summary05 ep ep), fsWrite_at]
    rfl

theorem run_pool_0_5_mono (force : Bool) (beh : String → Beh05)
    (eps : List String) (fs : FS) (l : ArtifactLoc)
    (h : (fs l).isSome = true) :
    (((run_pool_0_5 force beh eps fs).fs) l).isSome = true := by
  induction eps generalizing fs with
  | nil => exact h
  | cons ep rest ih => exact ih _ (run_single_0_5_mono force beh fs ep l h)

theorem run_pool_0_5_untouched (force : Bool) (beh : String → Beh05)
    (eps : List String) (fs : FS) (l : ArtifactLoc)
    (h : ∀ ep ∈ eps, l ≠ turns05 ep ∧ l ≠ summary05 ep) :
    ((run_pool_0_5 force beh eps fs).fs) l = fs l := by
  induction eps generalizing fs with
  | nil => rfl
  | cons ep rest ih =>
    have hep := h ep (List.mem_cons_self ep rest)
    exact (ih _ (fun e he => h e (List.mem_cons_of_mem _ he))).trans
      (run_single_0_5_untouched force beh fs ep l hep.1 hep.2)

theorem run_pool_0_5_ids (force : Bool) (beh : String → Beh05)
    (eps : List String) (fs : FS) :
    (run_pool_0_5 force beh eps fs).results.map EpResult.episode_id = eps := by
  induction eps generalizing fs with
  | nil => rfl
  | cons ep rest ih =>
    have htail := ih ((run_single_0_5 force beh fs ep).2.1)
    cases hr : (run_single_0_5 force beh fs ep).1 with
    | ok c =>
      show (EpResult.episode_id _ :: _) = _
      simp only [run_pool_0_5, hr]
      rw [htail]
    | error e =>
      show (EpResult.episode_id _ :: _) = _
      simp only [run_pool_0_5, hr]
      rw [htail]

theorem run_pool_0_5_status_present (force : Bool) (beh : String → Beh05)
    (eps : List String) (fs : FS) :
    ∀ r ∈ (run_pool_0_5 force beh eps fs).results,
      r.status = "success" ∨ r.status = "already_exists" →
      (((run_pool_0_5 force beh eps fs).fs) (turns05 r.episode_id)).isSome = true := by
  induction eps generalizing fs with
  | nil => intro r hr; cases hr
  | cons ep rest ih =>
    intro r hr hst
    rcases List.mem_cons.mp hr with hhead | hmem
    · subst hhead
      cases hc : (run_single_0_5 force beh fs ep).1 with
      | ok c =>
        simp only [hc] at hst ⊢
        exact run_pool_0_5_mono force beh rest _ _
          (run_single_0_5_status_present force beh fs ep c hc hst)
      | error e =>
        simp only [hc] at hst
        simp at hst
    · exact ih _ r hmem hst

theorem run_pool_0_5_all_exists (beh2 : String → Beh05) (eps : List String)
    (fs : FS) (h : ∀ ep ∈ eps, (fs (turns05 ep)).isSome = true) :
    run_pool_0_5 false beh2 eps fs
      = ⟨eps.map (fun e => ⟨e, "already_exists", none, false⟩), fs⟩ := by
  induction eps with
  | nil => rfl
  | cons ep rest ih =>
    have hep : ((fs (turns05 ep)).isSome && !false) = true := by
      rw [h ep (List.mem_cons_self ep rest)]
      rfl
    have hsingle : run_single_0_5 false beh2 fs ep
        = (.ok ⟨"already_exists", none⟩, fs, false) := by
      unfold run_single_0_5
      rw [if_pos hep]
    simp only [run_pool_0_5, hsingle]
    rw [ih (fun e he => h e (List.mem_cons_of_mem _ he))]
    rfl

theorem unit_valid_isSome_05 (fs : FS) (ep : String)
    (h : unit_valid fs "0.5" ep = true) : (fs (turns05 ep)).isSome = true := by
  cases hfs : fs (turns05 ep) with
  | none =>
    exfalso
    have hbad : file_invalid_at fs "0.5" ep "0_5_dialogue_turns.json" = true := by
      unfold file_invalid_at
      rw [show resolvePath "0.5" ep "0_5_dialogue_turns.json" = turns05 ep from rfl,
        hfs]
    rw [show unit_valid fs "0.5" ep
        = (!file_invalid_at fs "0.5" ep "0_5_dialogue_turns.json" && true) from rfl,
      hbad] at h
    cases h
  | some d => rfl

theorem unit_valid_isSome_02 (fs : FS) (ep : String)
    (h : unit_valid fs "0.2" ep = true) : (fs (clues02 ep)).isSome = true := by
  cases hfs : fs (clues02 ep) with
  | none =>
    exfalso
    have hbad : file_invalid_at fs "0.2" ep "0_2_clues.json" = true := by
      unfold file_invalid_at
      rw [show resolvePath "0.2" ep "0_2_clues.json" = clues02 ep from rfl, hfs]
    rw [show unit_valid fs "0.2" ep
        = (!file_invalid_at fs "0.2" ep "0_2_clues.json" && true) from rfl,
      hbad] at h
    cases h
  | some d => rfl

/-- A result whose `dialogue_turns` entry is truthy is a dict satisfying the
stage-0.5 structural validity rule. -/
theorem content_ok_of_turns (j : JsonVal)
    (h : getTruthy j "dialogue_turns" = true) : step05_content_ok j = true := by
  cases j with
  | obj fields =>
    have hdef : step05_content_ok (.obj fields)
        = (getTruthy (.obj fields) "dialogue_turns"
            || getTruthy (.obj fields) "turns"
            || getTruthy (.obj fields) "dialogues") := rfl
    rw [hdef, h]
    rfl
  | arr l => simp [getTruthy, jsonGet] at h
  | str s => simp [getTruthy, jsonGet] at h
  | num q => simp [getTruthy, jsonGet] at h
  | bool b => simp [getTruthy, jsonGet] at h
  | null => simp [getTruthy, jsonGet] at h

/-- Claim C5: a unit whose stage output already passes the validity check is
short-circuited to `already_exists` with no model invocation when no
override flag is set (steps 0.5 and 0.2); consequently, when a resume run
of step 0.5 ends with every unit `success` or `already_exists`, running the
stage again on the resulting state yields `already_exists` for every unit,
invokes the external chain for none of them, and leaves the state
unchanged — whatever the external collaborator would have answered. -/
theorem C5_resume_idempotent (beh beh2 : String → Beh05)
    (beh02 : String → Beh02) (fs : FS) (eps : List String) (ep : String)
    (prior : JsonVal) :
    (unit_valid fs "0.5" ep = true →
        run_single_0_5 false beh fs ep = (.ok ⟨"already_exists", none⟩, fs, false))
    ∧ (unit_valid fs "0.2" ep = true →
        run_single_0_2 false beh02 fs ep prior
          = (.ok ⟨"already_exists", none⟩, fs, none))
    ∧ ((∀ r ∈ (run_all_0_5 false beh fs eps).1.results,
          r.status = "success" ∨ r.status = "already_exists") →
        run_all_0_5 false beh2 ((run_all_0_5 false beh fs eps).2) eps
          = (⟨"completed", eps.map (fun e => ⟨e, "already_exists", none, false⟩)⟩,
             (run_all_0_5 false beh fs eps).2)) := by
  refine ⟨?_, ?_, ?_⟩
  · intro h
    have hs : ((fs (turns05 ep)).isSome && !false) = true := by
      rw [unit_valid_isSome_05 fs ep h]
      rfl
    unfold run_single_0_5
    rw [if_pos hs]
  · intro h
    have hs : ((fs (clues02 ep)).isSome && !false) = true := by
      rw [unit_valid_isSome_02 fs ep h]
      rfl
    unfold run_single_0_2
    rw [if_pos hs]
  · intro h
    have hall : ∀ e ∈ eps,
        (((run_pool_0_5 false beh eps fs).fs) (turns05 e)).isSome = true := by
      intro e he
      have hids := run_pool_0_5_ids false beh eps fs
      have hmem : e ∈ (run_pool_0_5 false beh eps fs).results.map
          EpResult.episode_id := by rw [hids]; exact he
      rcases List.mem_map.mp hmem with ⟨r, hr, hre⟩
      have := run_pool_0_5_status_present false beh eps fs r hr (h r hr)
      rwa [hre] at this
    show run_all_0_5 false beh2 ((run_pool_0_5 false beh eps fs).fs) eps = _
    unfold run_all_0_5
    rw [run_pool_0_5_all_exists beh2 eps _ hall]

theorem C5_witness :
    run_single_0_5 false behC4 fsC5 "episode_001"
      = (.ok ⟨"already_exists", none⟩, fsC5, false) :=
  (C5_resume_idempotent behC4 behC4 behC7 fsC5 [] "episode_001" JsonVal.null).1
    (by decide)

/-- Failing-unit isolation inside step 0.5's pool, in inductive form: with
one episode `A` whose calibrated input is missing while every other episode
succeeds, the pool records `A`'s structured failure, every other episode's
success with a valid artifact, and never creates `A`'s artifact. -/
theorem run_pool_0_5_C4 (beh : String → Beh05) (A : String) :
    ∀ (eps : List String) (fs : FS),
    eps.Nodup →
    fs (calib04 A) = none →
    fs (turns05 A) = none →
    (∀ B ∈ eps, B ≠ A →
        fs (turns05 B) = none
        ∧ (∃ sz, fs (calib04 B) = some (.notJson sz) ∧ sz ≠ 0)
        ∧ (∃ j t s, beh B = .result j t s ∧ getTruthy j "dialogue_turns" = true)) →
    (A ∈ eps →
        (⟨A, "failed", some "Missing Step0.4 output", false⟩ : EpResult)
          ∈ (run_pool_0_5 false beh eps fs).results)
    ∧ (∀ B ∈ eps, B ≠ A →
        (⟨B, "success", none, true⟩ : EpResult)
            ∈ (run_pool_0_5 false beh eps fs).results
        ∧ ∃ t j, (run_pool_0_5 false beh eps fs).fs (turns05 B)
              = some (.asJson t j) ∧ step05_content_ok j = true)
    ∧ (run_pool_0_5 false beh eps fs).fs (turns05 A) = none := by
  intro eps
  induction eps with
  | nil =>
    intro fs _ _ hAt _
    exact ⟨fun h => absurd h (List.not_mem_nil A),
      fun B hB => absurd hB (List.not_mem_nil B), hAt⟩
  | cons ep rest ih =>
    intro fs hnd hAc hAt hB
    have hndr : rest.Nodup := (List.nodup_cons.mp hnd).2
    have hepnr : ep ∉ rest := (List.nodup_cons.mp hnd).1
    by_cases hepA : ep = A
    · subst hepA
      have hsingle : run_single_0_5 false beh fs ep
          = (.ok ⟨"failed", some "Missing Step0.4 output"⟩, fs, false) := by
        unfold run_single_0_5
        rw [hAt, hAc]
        rfl
      have IH := ih fs hndr hAc hAt
        (fun B hBr hne => hB B (List.mem_cons_of_mem _ hBr) hne)
      refine ⟨fun _ => ?_, ?_, ?_⟩
      · simp only [run_pool_0_5, hsingle]
        exact List.mem_cons_self _ _
      · intro B hBm hne
        have hBr : B ∈ rest := by
          rcases List.mem_cons.mp hBm with rfl | h2
          · exact absurd rfl hne
          · exact h2
        have hcons := IH.2.1 B hBr hne
        refine ⟨?_, ?_⟩
        · simp only [run_pool_0_5, hsingle]
          exact List.mem_cons_of_mem _ hcons.1
        · simp only [run_pool_0_5, hsingle]
          exact hcons.2
      · simp only [run_pool_0_5, hsingle]
        exact IH.2.2
    · obtain ⟨hBt, ⟨sz, hBc, hsz⟩, ⟨j, t, s, hbeh, htr⟩⟩ :=
        hB ep (List.mem_cons_self ep rest) hepA
      have hsingle : run_single_0_5 false beh fs ep
          = (.ok ⟨"success", none⟩,
             fsWrite (fsWrite fs (turns05 ep) (.asJson t j)) (summary05 ep)
               (.notJson s), true) := by
        unfold run_single_0_5
        simp [hBt, hBc, hbeh, htr, hsz, FileData.byteSize]
      set fs1 := fsWrite (fsWrite fs (turns05 ep) (.asJson t j)) (summary05 ep)
        (.notJson s) with hfs1
      have hAc1 : fs1 (calib04 A) = none := by
        rw [hfs1, fsWrite_ne _ _ _ _ (Ne.symm (summary05_ne_calib04 ep A)),
          fsWrite_ne _ _ _ _ (Ne.symm (turns05_ne_calib04 ep A))]
        exact hAc
      have hAt1 : fs1 (turns05 A) = none := by
        rw [hfs1, fsWrite_ne _ _ _ _ (turns05_ne_summary05 A ep),
          fsWrite_ne _ _ _ _ (turns05_ne_of_ne (fun h => hepA h.symm))]
        exact hAt
      have hB1 : ∀ B ∈ rest, B ≠ A →
          fs1 (turns05 B) = none
          ∧ (∃ szb, fs1 (calib04 B) = some (.notJson szb) ∧ szb ≠ 0)
          ∧ (∃ jb tb sb, beh B = .result jb tb sb
              ∧ getTruthy jb "dialogue_turns" = true) := by
        intro B hBr hne
        obtain ⟨h1, ⟨szb, h2, h3⟩, h4⟩ :=
          hB B (List.mem_cons_of_mem _ hBr) hne
        have hBep : B ≠ ep := fun h => hepnr (h ▸ hBr)
        refine ⟨?_, ⟨szb, ?_, h3⟩, h4⟩
        · rw [hfs1, fsWrite_ne _ _ _ _ (turns05_ne_summary05 B ep),
            fsWrite_ne _ _ _ _ (turns05_ne_of_ne hBep)]
          exact h1
        · rw [hfs1, fsWrite_ne _ _ _ _ (Ne.symm (summary05_ne_calib04 ep B)),
            fsWrite_ne _ _ _ _ (Ne.symm (turns05_ne_calib04 ep B))]
          exact h2
      have IH := ih fs1 hndr hAc1 hAt1 hB1
      refine ⟨?_, ?_, ?_⟩
      · intro hAm
        have hAr : A ∈ rest := by
          rcases List.mem_cons.mp hAm with h2 | h2
          · exact absurd h2.symm hepA
          · exact h2
        simp only [run_pool_0_5, hsingle]
        exact List.mem_cons_of_mem _ (IH.1 hAr)
      · intro B hBm hne
        rcases List.mem_cons.mp hBm with rfl | hBr
        · refine ⟨?_, ?_⟩
          · simp only [run_pool_0_5, hsingle]
            exact List.mem_cons_self _ _
          · refine ⟨t, j, ?_, content_ok_of_turns j htr⟩
            simp only [run_pool_0_5, hsingle]
            have huntouched : (run_pool_0_5 false beh rest fs1).fs (turns05 B)
                = fs1 (turns05 B) := by
              refine run_pool_0_5_untouched false beh rest fs1 (turns05 B) ?_
              intro e he
              have hBe : B ≠ e := fun h => hepnr (h ▸ he)
              exact ⟨turns05_ne_of_ne hBe, turns05_ne_summary05 B e⟩
            rw [huntouched, hfs1,
              fsWrite_ne _ _ _ _ (turns05_ne_summary05 B B), fsWrite_at]
        · have hcons := IH.2.1 B hBr hne
          refine ⟨?_, ?_⟩
          · simp only [run_pool_0_5, hsingle]
            exact List.mem_cons_of_mem _ hcons.1
          · simp only [run_pool_0_5, hsingle]
            exact hcons.2
      · simp only [run_pool_0_5, hsingle]
        exact IH.2.2

/-- Claim C4: a per-unit failure in step 0.5 (here: a unit whose required
step-0.4 input is missing) is converted into a structured per-unit result
and does not prevent the remaining units from being processed; the
succeeding units' artifacts are written and valid; the aggregate status is
still `completed`, and the stage — hence the run — is nonetheless reported
as failed because the post-stage integrity probe detects the failed unit's
missing artifact. -/
theorem C4_partial_failure_isolation (beh : String → Beh05) (fs : FS)
    (eps : List String) (A : String)
    (hnd : eps.Nodup) (hA : A ∈ eps)
    (hAc : fs (calib04 A) = none)
    (hAt : fs (turns05 A) = none)
    (hB : ∀ B ∈ eps, B ≠ A →
        fs (turns05 B) = none
        ∧ (∃ sz, fs (calib04 B) = some (.notJson sz) ∧ sz ≠ 0)
        ∧ (∃ j t s, beh B = .result j t s ∧ getTruthy j "dialogue_turns" = true)) :
    (run_all_0_5 false beh fs eps).1.status = "completed"
    ∧ (⟨A, "failed", some "Missing Step0.4 output", false⟩ : EpResult)
        ∈ (run_all_0_5 false beh fs eps).1.results
    ∧ (∀ B ∈ eps, B ≠ A →
        (⟨B, "success", none, true⟩ : EpResult)
            ∈ (run_all_0_5 false beh fs eps).1.results
        ∧ unit_valid ((run_all_0_5 false beh fs eps).2) "0.5" B = true)
    ∧ check_file_integrity ((run_all_0_5 false beh fs eps).2) eps "0.5" = false
    ∧ run_step_result_ok "0.5" (some (run_all_0_5 false beh fs eps).1.status)
        (check_file_integrity ((run_all_0_5 false beh fs eps).2) eps "0.5")
        = false := by
  have pool := run_pool_0_5_C4 beh A eps fs hnd hAc hAt hB
  have hAtFinal : (run_pool_0_5 false beh eps fs).fs (turns05 A) = none :=
    pool.2.2
  have hmiss : integrity_file_bad ((run_pool_0_5 false beh eps fs).fs) "0.5" A
      "0_5_dialogue_turns.json" = true := by
    unfold integrity_file_bad
    rw [show resolvePath "0.5" A "0_5_dialogue_turns.json" = turns05 A from rfl,
      hAtFinal]
  have hany : (eps.any fun ep => (integrity_expected_files "0.5").any
      fun fn => integrity_file_bad ((run_pool_0_5 false beh eps fs).fs) "0.5" ep fn)
      = true := by
    refine List.any_eq_true.mpr ⟨A, hA, ?_⟩
    rw [show integrity_expected_files "0.5" = ["0_5_dialogue_turns.json"] from rfl]
    simp [hmiss]
  have hcheck : check_file_integrity ((run_pool_0_5 false beh eps fs).fs) eps "0.5"
      = false := by
    unfold check_file_integrity
    rw [hany]
    rfl
  refine ⟨rfl, pool.1 hA, ?_, hcheck, ?_⟩
  · intro B hBm hne
    have hcons := pool.2.1 B hBm hne
    obtain ⟨t, j, hfsB, hok⟩ := hcons.2
    refine ⟨hcons.1, ?_⟩
    have hbad : file_invalid_at ((run_pool_0_5 false beh eps fs).fs) "0.5" B
        "0_5_dialogue_turns.json" = false := by
      unfold file_invalid_at
      rw [show resolvePath "0.5" B "0_5_dialogue_turns.json" = turns05 B from rfl,
        hfsB]
      show file_invalid "0.5" "0_5_dialogue_turns.json" (.asJson t j) = false
      rw [show file_invalid "0.5" "0_5_dialogue_turns.json" (.asJson t j)
          = !step05_content_ok j from rfl, hok]
      rfl
    rw [show unit_valid ((run_all_0_5 false beh fs eps).2) "0.5" B
        = (!file_invalid_at ((run_pool_0_5 false beh eps fs).fs) "0.5" B
            "0_5_dialogue_turns.json" && true) from rfl, hbad]
    rfl
  · rw [show check_file_integrity ((run_all_0_5 false beh fs eps).2) eps "0.5"
        = check_file_integrity ((run_pool_0_5 false beh eps fs).fs) eps "0.5"
        from rfl, hcheck]
    rfl

theorem C4_witness :
    run_step_result_ok "0.5" (some (run_all_0_5 false behC4 fsC4 eps4).1.status)
      (check_file_integrity ((run_all_0_5 false behC4 fsC4 eps4).2) eps4 "0.5")
      = false := by
  refine (C4_partial_failure_isolation behC4 fsC4 eps4 "episode_002"
    (by decide) (by decide) rfl rfl ?_).2.2.2.2
  intro B hBm hne
  have hB3 : B = "episode_001" ∨ B = "episode_002" ∨ B = "episode_003" := by
    simpa [eps4] using hBm
  rcases hB3 with rfl | rfl | rfl
  · exact ⟨rfl, ⟨150, rfl, by decide⟩,
      ⟨.obj [("dialogue_turns", .arr [.str "t"])], 300, 100, rfl, by decide⟩⟩
  · exact absurd rfl hne
  · exact ⟨rfl, ⟨150, rfl, by decide⟩,
      ⟨.obj [("dialogue_turns", .arr [.str "t"])], 300, 100, rfl, by decide⟩⟩

/-- Claim C9 (amended): the multi-unit fan-out stages return the literal
`completed` as whole-stage aggregate status whatever the per-unit outcomes
are, but project-global stage 0.8 normally returns any of
`already_exists`, `no_files`, `failed`, `completed`. -/
theorem C9_aggregate_status (force force2 : Bool) (beh : String → Beh05)
    (beh02 : String → Beh02) (now : String) (fs fs2 fs3 : FS)
    (eps eps2 eps3 : List String) (force3 mr : Bool) :
    (run_all_0_5 force beh fs eps).1.status = "completed"
    ∧ (run_all_0_2 force2 beh02 now fs2 eps2).1.status = "completed"
    ∧ (run_0_8_status fs3 force3 eps3 mr = "already_exists"
        ∨ run_0_8_status fs3 force3 eps3 mr = "no_files"
        ∨ run_0_8_status fs3 force3 eps3 mr = "failed"
        ∨ run_0_8_status fs3 force3 eps3 mr = "completed") := by
  refine ⟨rfl, rfl, ?_⟩
  unfold run_0_8_status
  repeat' split
  all_goals first
    | exact Or.inl rfl
    | exact Or.inr (Or.inl rfl)
    | exact Or.inr (Or.inr (Or.inl rfl))
    | exact Or.inr (Or.inr (Or.inr rfl))

theorem run_single_0_2_used (force : Bool) (beh : String → Beh02) (fs : FS)
    (ep : String) (pr : JsonVal) :
    (run_single_0_2 force beh fs ep pr).2.2 = none
    ∨ (run_single_0_2 force beh fs ep pr).2.2 = some pr := by
  unfold run_single_0_2
  repeat' split
  all_goals first
    | exact Or.inl rfl
    | exact Or.inr rfl

/-- Structure of the serial episode loop of step 0.2: results come in list
order, the prior injected into the k-th episode's prompt is the state after
folding the first k episodes, and the final state is the full fold. -/
theorem run_loop_0_2_spec (force : Bool) (beh : String → Beh02) (now : String)
    (l : List String) :
    ∀ st : FS × JsonVal,
    ((run_loop_0_2 force beh now l st).1.map Res02.episode_id = l)
    ∧ (∀ k r, (run_loop_0_2 force beh now l st).1.get? k = some r →
        ∀ p, r.usedPrior = some p →
          p = ((l.take k).foldl (step_0_2_once force beh now) st).2)
    ∧ ((run_loop_0_2 force beh now l st).2
        = l.foldl (step_0_2_once force beh now) st) := by
  induction l with
  | nil =>
    intro st
    refine ⟨rfl, ?_, rfl⟩
    intro k r h
    simp [run_loop_0_2] at h
  | cons ep rest ih =>
    intro st
    have IH := ih (step_0_2_once force beh now st ep)
    refine ⟨?_, ?_, IH.2.2⟩
    · cases hr : (run_single_0_2 force beh st.1 ep st.2).1 with
      | ok c => simp [run_loop_0_2, hr, IH.1]
      | error e => simp [run_loop_0_2, hr, IH.1]
    · intro k r h p hp
      cases k with
      | zero =>
        cases hrs : (run_single_0_2 force beh st.1 ep st.2).1 with
        | ok c =>
          simp only [run_loop_0_2, hrs, List.get?_cons_zero] at h
          injection h with h2
          subst h2
          simp only [] at hp
          rcases run_single_0_2_used force beh st.1 ep st.2 with hu | hu
          · rw [hu] at hp; cases hp
          · rw [hu] at hp
            injection hp with hp2
            exact hp2.symm
        | error e =>
          simp only [run_loop_0_2, hrs, List.get?_cons_zero] at h
          injection h with h2
          subst h2
          simp only [] at hp
          rcases run_single_0_2_used force beh st.1 ep st.2 with hu | hu
          · rw [hu] at hp; cases hp
          · rw [hu] at hp
            injection hp with hp2
            exact hp2.symm
      | succ k2 =>
        have h2 : (run_loop_0_2 force beh now rest
            (step_0_2_once force beh now st ep)).1.get? k2 = some r := h
        exact IH.2.1 k2 r h2 p hp

/-- Claim C7: step 0.2 processes the enumerated episodes serially in sorted
order (never through the worker pool — the loop is a sequential fold); for
each index k, the prior injected into that episode's prompt is exactly the
state obtained by merging and saving all preceding episodes' extracted
characters; and after every episode that returns, the merged prior has been
written to the prior file before the next episode's extraction begins. -/
theorem C7_serial_prior_accumulation (force : Bool) (beh : String → Beh02)
    (now : String) (fs : FS) (eps : List String) :
    ((run_all_0_2 force beh now fs eps).1.results.map Res02.episode_id
        = sortStrings eps)
    ∧ (∀ k r, (run_all_0_2 force beh now fs eps).1.results.get? k = some r →
        ∀ p, r.usedPrior = some p →
          p = (state_0_2_after force beh now fs (load_prior fs)
                ((sortStrings eps).take k)).2)
    ∧ (∀ (st : FS × JsonVal) (ep : String) (c : StepCall) (fs1 : FS)
          (u : Option JsonVal),
        run_single_0_2 force beh st.1 ep st.2 = (.ok c, fs1, u) →
        (step_0_2_once force beh now st ep).1 priorLoc
          = some (.asJson 0 (step_0_2_once force beh now st ep).2))
    ∧ ((run_all_0_2 force beh now fs eps).2
        = state_0_2_after force beh now fs (load_prior fs) (sortStrings eps)) := by
  have spec := run_loop_0_2_spec force beh now (sortStrings eps)
    (fs, load_prior fs)
  refine ⟨spec.1, spec.2.1, ?_, spec.2.2⟩
  intro st ep c fs1 u h
  unfold step_0_2_once
  rw [h]
  show (fsWrite fs1 priorLoc
      (.asJson 0 (objSet (merge_prior fs1 ep st.2) "updated_at" (.str now))))
      priorLoc
    = some (.asJson 0 (objSet (merge_prior fs1 ep st.2) "updated_at" (.str now)))
  exact fsWrite_at _ _ _

theorem C7_witness :
    ((runC7.1.results.getD 1 res02default).usedPrior.getD .null)
      = (state_0_2_after false behC7 "ts" fsC7 (load_prior fsC7)
          ((sortStrings ["episode_002", "episode_001"]).take 1)).2 :=
  (C7_serial_prior_accumulation false behC7 "ts" fsC7
      ["episode_002", "episode_001"]).2.1 1
    (runC7.1.results.getD 1 res02default) rfl
    ((runC7.1.results.getD 1 res02default).usedPrior.getD .null) rfl

end Pipeline